import Mathlib

/-!
# Verification of the whisper_frontend client

A shallow embedding of the browser front end for the Mongolian Whisper
transcription and dataset-curation tool, together with theorems about its
API layer (`src/utils/api.js`), dataset manager page
(`src/pages/DatasetManager.jsx`), transcribe page and recorder component
(`src/components/recorder.jsx`).

DOM and network effects are modelled by passing the observable inputs
(the HTTP response a call receives, the wall-clock date, browser
capability flags) explicitly and returning the observable outputs
(the parsed result or thrown error message, the request form fields,
the new local component state, the anchor-click outcome).
-/

namespace WhisperFrontend

/-- One dataset sample row as held in the manager's local list:
`{file_name, text}` fetched from `GET /dataset/list`. -/
structure Sample where
  file_name : String
  text : String
deriving Repr, DecidableEq

/-- JSON values, for parsed response bodies (`res.json()` / axios `res.data`). -/
inductive Json where
  | null
  | bool (b : Bool)
  | num (n : Int)
  | str (s : String)
  | arr (xs : List Json)
  | obj (fields : List (String × Json))

/-- An HTTP response as the client observes it: the status line, the raw
body text (what `res.text()` yields), the parsed body (what `res.json()` /
axios `res.data` yields) and the `content-type` header when present. -/
structure HttpResponse where
  status : Nat
  statusText : String
  bodyText : String
  bodyJson : Json
  contentType : Option String

/-- JS `String.prototype.startsWith`. -/
def jsStartsWith (s pre : String) : Bool :=
  List.isPrefixOf pre.data s.data

/-- JS `String.prototype.includes` (substring containment). -/
def jsIncludes (s sub : String) : Bool :=
  s.data.tails.any (fun t => List.isPrefixOf sub.data t)

/-- JS `String.prototype.toLowerCase` (on the ASCII range used here). -/
def jsToLower (s : String) : String :=
  ⟨s.data.map Char.toLower⟩

/-- JS `String.prototype.trim`: drop leading and trailing whitespace. -/
def jsTrim (s : String) : String :=
  ⟨((s.data.dropWhile Char.isWhitespace).reverse.dropWhile Char.isWhitespace).reverse⟩

/-- JS `str.padStart(n, c)`. -/
def jsPadStart (s : String) (n : Nat) (c : Char) : String :=
  if n ≤ s.length then s else ⟨List.replicate (n - s.length) c ++ s.data⟩

/-- `sub` occurs as a contiguous substring of `s`. -/
def substrOf (sub s : String) : Prop :=
  ∃ p q, s = p ++ sub ++ q

/-- The result of a JS `Date` at the moment of the call, under the JS
accessor conventions (`getMonth` is 0-based, `getDate`/hours/minutes/seconds
as returned by the corresponding accessors). -/
structure JsDate where
  getFullYear : Nat
  getMonth : Nat
  getDate : Nat
  getHours : Nat
  getMinutes : Nat
  getSeconds : Nat

namespace Api

/-- `res.ok` of the Fetch API: status in the inclusive range 200..299. -/
def resOk (r : HttpResponse) : Bool :=
  200 ≤ r.status && r.status ≤ 299

/-- The message of the error thrown by `handleResponse` on a non-ok
response: `` `${res.status} ${res.statusText}: ${text}` ``. -/
def errorMessage (r : HttpResponse) : String :=
  Nat.repr r.status ++ " " ++ r.statusText ++ ": " ++ r.bodyText

/-- `api.js` / its earlier revision: the generic response handler.
`if (!res.ok) throw new Error(...); return res.json();` -/
def handleResponse (r : HttpResponse) : Except String Json :=
  if resOk r then Except.ok r.bodyJson
  else Except.error (errorMessage r)

/-- `transcribeAudio`: result of the `POST /transcribe` call, given the
response it receives (the `catch` clause rethrows the error unchanged). -/
def transcribeAudio (r : HttpResponse) : Except String Json :=
  handleResponse r

/-- `listSamples`: result of the `GET /dataset/list` call (rethrows). -/
def listSamples (r : HttpResponse) : Except String Json :=
  handleResponse r

/-- `addSample`: result of the `POST /dataset/add` call (rethrows). -/
def addSample (r : HttpResponse) : Except String Json :=
  handleResponse r

/-- `updateSample`: result of the `POST /dataset/update` call (rethrows). -/
def updateSample (r : HttpResponse) : Except String Json :=
  handleResponse r

/-- `deleteSample` (api layer): result of the `POST /dataset/delete` call
(rethrows). -/
def deleteSample (r : HttpResponse) : Except String Json :=
  handleResponse r

/-- `cleanupOrphans`: result of the `POST /dataset/cleanup` call (rethrows). -/
def cleanupOrphans (r : HttpResponse) : Except String Json :=
  handleResponse r

/-- The form fields `updateSample(fileName, newText)` appends before
`POST /dataset/update` (identical in `api.js` and its earlier revision). -/
def updateSampleFields (fileName newText : String) : List (String × String) :=
  [("file_name", fileName), ("new_text", newText)]

/-- The `pad` helper inside `generateFileName`:
`(n) => n.toString().padStart(2, "0")`. -/
def pad (n : Nat) : String :=
  jsPadStart (Nat.repr n) 2 '0'

/-- `generateFileName(prefix = "usr")`: timestamp-based file name
`` `${prefix}_${Y}${pad(M+1)}${pad(D)}_${pad(h)}${pad(m)}${pad(s)}.wav` ``. -/
def generateFileName (pfx : String) (now : JsDate) : String :=
  pfx ++ "_" ++ Nat.repr now.getFullYear ++ pad (now.getMonth + 1) ++
    pad now.getDate ++ "_" ++ pad now.getHours ++ pad now.getMinutes ++
    pad now.getSeconds ++ ".wav"

/-- The upload name chosen by `addSample(file, text, fileName = null)`:
`const name = fileName || generateFileName("usr")` (JS `||`, so both `null`
and the empty string fall back to the generated name). -/
def addSampleName (fileName : Option String) (now : JsDate) : String :=
  match fileName with
  | none => generateFileName "usr" now
  | some s => if s = "" then generateFileName "usr" now else s

/-- `getAudioUrl` from the api utility revision: playback URL with ad-hoc
normalization of `/record_archive` and `wavs/` prefixes. -/
def getAudioUrl (API_BASE fileName : String) : String :=
  if jsStartsWith fileName "/record_archive" then API_BASE ++ fileName
  else if jsStartsWith fileName "wavs/" then API_BASE ++ "/record_archive/" ++ fileName
  else API_BASE ++ "/record_archive/wavs/" ++ fileName

end Api

namespace DM

/-- JS property access `j[k]` on a parsed JSON value (with `?.` semantics:
accessing a non-object yields `undefined`, here `none`). -/
def jsGetProp (j : Json) (k : String) : Option Json :=
  match j with
  | Json.obj fields => (fields.find? (fun p => p.1 == k)).map (fun p => p.2)
  | _ => none

/-- JS truthiness of a JSON value (for `x || y`). -/
def jsTruthy (j : Json) : Bool :=
  match j with
  | Json.null => false
  | Json.bool b => b
  | Json.num n => n != 0
  | Json.str s => s != ""
  | Json.arr _ => true
  | Json.obj _ => true

/-- `fetchSamples` (DatasetManager v4.1.8): the rows assigned to the local
list from a successful `GET /dataset/list` body:
`const rows = res.data?.samples || [];`. -/
def fetchSamplesRows (data : Json) : Json :=
  match jsGetProp data "samples" with
  | some v => if jsTruthy v then v else Json.arr []
  | none => Json.arr []

/-- `updateText` (DatasetManager v4.1.8): the form fields sent to
`POST /dataset/update` after trimming (when the guard passes). -/
def updateTextFields (file_name new_text : String) : List (String × String) :=
  [("file_name", jsTrim file_name), ("new_text", jsTrim new_text)]

/-- `updateText` (DatasetManager v4.1.8) as a state step. Inputs: the two
arguments and the `status` field of the server's reply (irrelevant when no
request is sent); output: whether an HTTP request was issued, and the new
local sample list. Mirrors:
`if (!cleanName || !cleanText) { showToast(...); return; }` then on
`res.data?.status === "ok"` the optimistic `prev.map(...)` update. -/
def updateText (file_name new_text : String) (respStatus : String)
    (prev : List Sample) : Bool × List Sample :=
  let cleanName := jsTrim file_name
  let cleanText := jsTrim new_text
  if cleanName == "" || cleanText == "" then
    (false, prev)
  else if respStatus == "ok" then
    (true, prev.map (fun s =>
      if s.file_name == cleanName then { s with text := cleanText } else s))
  else
    (true, prev)

/-- `deleteSample` (DatasetManager v4.1.8) as a state step, given the
`status` field of the server's reply: on `"ok"`,
`idx = prev.findIndex(...); next = prev.filter(s => s.file_name !== f)`;
when the row was found, `currentIdx` becomes
`next.length ? Math.min(idx, Math.max(0, next.length - 1)) : null`.
Returns the new sample list and the new `currentIdx`. -/
def deleteSample (respStatus file_name : String) (prev : List Sample)
    (currentIdx : Option Nat) : List Sample × Option Nat :=
  if respStatus == "ok" then
    let next := prev.filter (fun s => s.file_name != file_name)
    match prev.findIdx? (fun s => s.file_name == file_name) with
    | some idx =>
        (next, if next.length ≠ 0 then some (min idx (max 0 (next.length - 1))) else none)
    | none => (next, currentIdx)
  else (prev, currentIdx)

/-- Outcome of a dataset-export attempt: whether a download anchor was
created and clicked, and the toasts shown. -/
structure DownloadOutcome where
  anchorCreated : Bool
  anchorClicked : Bool
  toasts : List String
deriving Repr, DecidableEq

/-- `downloadDataset` (DatasetManager v4.1.8, "Safe Unified Dataset
Download"): shows a preparing toast, then
`if (!ct.includes("application/zip"))` surfaces the body text (or a
fallback notice) and returns without touching the DOM; otherwise builds
the blob anchor, clicks it and toasts success. -/
def downloadDataset (r : HttpResponse) : DownloadOutcome :=
  let ct := jsToLower ((r.contentType).getD "")
  if !(jsIncludes ct "application/zip") then
    { anchorCreated := false, anchorClicked := false,
      toasts := ["⏳ Preparing ZIP...",
        if r.bodyText == "" then "⚠️ Download error." else r.bodyText] }
  else
    { anchorCreated := true, anchorClicked := true,
      toasts := ["⏳ Preparing ZIP...", "✅ Download complete!"] }

end DM

namespace DMv1

/-- `updateText` of the earliest two DatasetManager revisions: fields sent
untrimmed to `POST /dataset/update`. -/
def updateTextFields (file_name new_text : String) : List (String × String) :=
  [("file_name", file_name), ("new_text", new_text)]

/-- `downloadDataset` of the earliest DatasetManager revision: no
content-type inspection at all; unconditionally builds the anchor, clicks
it and toasts. -/
def downloadDataset : HttpResponse → DM.DownloadOutcome :=
  fun _ =>
    { anchorCreated := true, anchorClicked := true, toasts := ["⬇️ Downloaded!"] }

end DMv1

/-- The field keys each revision of the update call sends to
`POST /dataset/update`, one entry per occurrence in the sources:
`api.js updateSample`, the earlier api utility `updateSample`,
DatasetManager v4.1.8 `updateText`, and the three `updateText` revisions
in the earlier DatasetManager copies (the first and third untrimmed, the
second trimmed like v4.1.8). -/
def updateRequestFieldKeys (file_name new_text : String) : List (List String) :=
  [ (Api.updateSampleFields file_name new_text).map Prod.fst,
    (Api.updateSampleFields file_name new_text).map Prod.fst,
    (DM.updateTextFields file_name new_text).map Prod.fst,
    (DMv1.updateTextFields file_name new_text).map Prod.fst,
    (DM.updateTextFields file_name new_text).map Prod.fst,
    (DMv1.updateTextFields file_name new_text).map Prod.fst ]

namespace Recorder

/-- `startRecording` (recorder.jsx): the MIME type picked by capability
probing: `isSafari ? "audio/mp4" :
MediaRecorder.isTypeSupported("audio/webm;codecs=opus") ?
"audio/webm;codecs=opus" : "audio/mp4"`. -/
def chooseMimeType (isSafari supportsWebmOpus : Bool) : String :=
  if isSafari then "audio/mp4"
  else if supportsWebmOpus then "audio/webm;codecs=opus"
  else "audio/mp4"

/-- An encoded audio blob: its bytes and its MIME type tag. -/
structure RecBlob where
  data : List Nat
  type : String
deriving Repr, DecidableEq

/-- `new Blob(chunks, { type })`: concatenate the chunks. -/
def mkBlob (chunks : List (List Nat)) (t : String) : RecBlob :=
  ⟨chunks.flatten, t⟩

/-- `blob.size`. -/
def blobSize (b : RecBlob) : Nat :=
  b.data.length

/-- `ondataavailable`: `if (e.data && e.data.size > 0) chunks.push(e.data)`. -/
def pushChunk (buf : List (List Nat)) (c : List Nat) : List (List Nat) :=
  if 0 < c.length then buf ++ [c] else buf

/-- The chunk buffer accumulated over a recording session from the raw
`dataavailable` payloads. -/
def bufferChunks (events : List (List Nat)) : List (List Nat) :=
  events.foldl pushChunk []

/-- `onstop` (recorder.jsx): build the final blob from the buffered chunks
with the probed MIME type, falling back to re-tagging as `audio/mp4` when
the blob came out untyped or empty (Safari quirk). -/
def onStopBlob (chunks : List (List Nat)) (mimeType : String) : RecBlob :=
  let blob := mkBlob chunks mimeType
  if blob.type == "" || blobSize blob == 0 then mkBlob chunks "audio/mp4"
  else blob

end Recorder

/-- Modelled from the spec (testable property of C4): removing a sample
removes exactly the entries carrying the deleted file name, keeping every
other entry unchanged and in its original relative order. -/
def removeAllByName (file_name : String) : List Sample → List Sample
  | [] => []
  | s :: rest =>
      if s.file_name = file_name then removeAllByName file_name rest
      else s :: removeAllByName file_name rest

/-- A string matches the fixed timestamp pattern `usr_YYYYMMDD_HHMMSS.wav`:
a 4-digit year block and five 2-digit blocks in the fixed frame. -/
def matchesTimestampPattern (name : String) : Prop :=
  ∃ y mo d h mi s : String,
    name = "usr" ++ "_" ++ y ++ mo ++ d ++ "_" ++ h ++ mi ++ s ++ ".wav" ∧
    y.length = 4 ∧ mo.length = 2 ∧ d.length = 2 ∧
    h.length = 2 ∧ mi.length = 2 ∧ s.length = 2 ∧
    y.data.all Char.isDigit = true ∧ mo.data.all Char.isDigit = true ∧
    d.data.all Char.isDigit = true ∧ h.data.all Char.isDigit = true ∧
    mi.data.all Char.isDigit = true ∧ s.data.all Char.isDigit = true

/-! ## Theorems -/

lemma resOk_false_of_non2xx (r : HttpResponse)
    (h : ¬ (200 ≤ r.status ∧ r.status ≤ 299)) : Api.resOk r = false := by
  simp only [Api.resOk, Bool.and_eq_false_imp, decide_eq_true_eq,
    decide_eq_false_iff_not]
  omega

lemma handleResponse_error_of_non2xx (r : HttpResponse)
    (h : ¬ (200 ≤ r.status ∧ r.status ≤ 299)) :
    Api.handleResponse r = Except.error (Api.errorMessage r) := by
  simp [Api.handleResponse, resOk_false_of_non2xx r h]

lemma status_substr_errorMessage (r : HttpResponse) :
    substrOf (Nat.repr r.status) (Api.errorMessage r) := by
  refine ⟨"", " " ++ r.statusText ++ ": " ++ r.bodyText, ?_⟩
  simp [Api.errorMessage, String.append_assoc]

/-- C1: for every HTTP response with a non-2xx status, each API-layer
operation built on the generic response handler (`transcribeAudio`,
`listSamples`, `addSample`, `updateSample`, `deleteSample`,
`cleanupOrphans`) rejects with an error whose message contains the numeric
status code of the response. -/
theorem api_ops_non2xx_reject_with_status_code (r : HttpResponse)
    (h : ¬ (200 ≤ r.status ∧ r.status ≤ 299)) :
    Api.transcribeAudio r = Except.error (Api.errorMessage r) ∧
    Api.listSamples r = Except.error (Api.errorMessage r) ∧
    Api.addSample r = Except.error (Api.errorMessage r) ∧
    Api.updateSample r = Except.error (Api.errorMessage r) ∧
    Api.deleteSample r = Except.error (Api.errorMessage r) ∧
    Api.cleanupOrphans r = Except.error (Api.errorMessage r) ∧
    substrOf (Nat.repr r.status) (Api.errorMessage r) := by
  have he := handleResponse_error_of_non2xx r h
  exact ⟨he, he, he, he, he, he, status_substr_errorMessage r⟩

/-- Witness for C1 at a concrete 404 response. -/
theorem api_ops_non2xx_reject_with_status_code_witness :
    Api.transcribeAudio ⟨404, "Not Found", "missing", Json.null, none⟩ =
      Except.error (Api.errorMessage ⟨404, "Not Found", "missing", Json.null, none⟩) ∧
    Api.listSamples ⟨404, "Not Found", "missing", Json.null, none⟩ =
      Except.error (Api.errorMessage ⟨404, "Not Found", "missing", Json.null, none⟩) ∧
    Api.addSample ⟨404, "Not Found", "missing", Json.null, none⟩ =
      Except.error (Api.errorMessage ⟨404, "Not Found", "missing", Json.null, none⟩) ∧
    Api.updateSample ⟨404, "Not Found", "missing", Json.null, none⟩ =
      Except.error (Api.errorMessage ⟨404, "Not Found", "missing", Json.null, none⟩) ∧
    Api.deleteSample ⟨404, "Not Found", "missing", Json.null, none⟩ =
      Except.error (Api.errorMessage ⟨404, "Not Found", "missing", Json.null, none⟩) ∧
    Api.cleanupOrphans ⟨404, "Not Found", "missing", Json.null, none⟩ =
      Except.error (Api.errorMessage ⟨404, "Not Found", "missing", Json.null, none⟩) ∧
    substrOf (Nat.repr 404)
      (Api.errorMessage ⟨404, "Not Found", "missing", Json.null, none⟩) :=
  api_ops_non2xx_reject_with_status_code
    ⟨404, "Not Found", "missing", Json.null, none⟩ (by decide)

lemma jsStartsWith_wavs_append_not_archive (f : String) :
    jsStartsWith ("wavs/" ++ f) "/record_archive" = false := by
  simp only [jsStartsWith, String.data_append]
  exact rfl

lemma jsStartsWith_wavs_append_wavs (f : String) :
    jsStartsWith ("wavs/" ++ f) "wavs/" = true := by
  simp only [jsStartsWith, String.data_append]
  simp [ List.isPrefixOf_iff_prefix]

/-- C8: the playback-URL builder normalizes a `wavs/` prefix: for a file
name that starts with neither `/record_archive` nor `wavs/`,
`getAudioUrl("wavs/" + f)` and `getAudioUrl(f)` agree and both equal
`` `${API_BASE}/record_archive/wavs/${f}` ``. -/
theorem getAudioUrl_normalizes_wavs_prefix (API_BASE f : String)
    (h1 : jsStartsWith f "/record_archive" = false)
    (h2 : jsStartsWith f "wavs/" = false) :
    Api.getAudioUrl API_BASE ("wavs/" ++ f) = Api.getAudioUrl API_BASE f ∧
    Api.getAudioUrl API_BASE f = API_BASE ++ "/record_archive/wavs/" ++ f := by
  have hlit : "/record_archive/" ++ "wavs/" = "/record_archive/wavs/" := by decide
  have hmerge : "/record_archive/" ++ ("wavs/" ++ f) = "/record_archive/wavs/" ++ f := by
    rw [← String.append_assoc, hlit]
  constructor
  · rw [Api.getAudioUrl, Api.getAudioUrl, jsStartsWith_wavs_append_not_archive f,
      jsStartsWith_wavs_append_wavs f, h1, h2]
    simp only [Bool.false_eq_true, if_false, if_true]
    rw [String.append_assoc, hmerge, ← String.append_assoc]
  · rw [Api.getAudioUrl, h1, h2]
    simp

/-- Witness for C8 at a concrete base URL and file name. -/
theorem getAudioUrl_normalizes_wavs_prefix_witness :
    Api.getAudioUrl "http://127.0.0.1:10000" ("wavs/" ++ "sample1.wav") =
      Api.getAudioUrl "http://127.0.0.1:10000" "sample1.wav" ∧
    Api.getAudioUrl "http://127.0.0.1:10000" "sample1.wav" =
      "http://127.0.0.1:10000" ++ "/record_archive/wavs/" ++ "sample1.wav" :=
  getAudioUrl_normalizes_wavs_prefix "http://127.0.0.1:10000" "sample1.wav"
    (by decide) (by decide)

/-- C5 counterexample: at concrete arguments, no revision of the
`POST /dataset/update` call sends a form field named `text`; the claimed
`text`-using revision does not exist. -/
theorem no_update_revision_uses_text_key :
    ((updateRequestFieldKeys "usr_1.wav" "hello").any
      (fun ks => ks.contains "text")) = false := by
  decide

/-- C5 amended: every revision of the `POST /dataset/update` call sends
exactly the field keys `file_name` and `new_text`, for any arguments. -/
theorem all_update_revisions_use_new_text_key (file_name new_text : String) :
    updateRequestFieldKeys file_name new_text =
      List.replicate 6 ["file_name", "new_text"] := by
  rfl

/-- C10: when the file name or the new text trims to the empty string,
the dataset manager's `updateText` issues no HTTP request and leaves the
local sample list unchanged. -/
theorem updateText_blank_input_is_noop
    (file_name new_text respStatus : String) (prev : List Sample)
    (h : jsTrim file_name = "" ∨ jsTrim new_text = "") :
    DM.updateText file_name new_text respStatus prev = (false, prev) := by
  rcases h with h | h <;> simp [DM.updateText, h]

/-- Witness for C10 at whitespace-only text. -/
theorem updateText_blank_input_is_noop_witness :
    DM.updateText "usr_1.wav" "   " "ok" [⟨"usr_1.wav", "old"⟩] =
      (false, [⟨"usr_1.wav", "old"⟩]) :=
  updateText_blank_input_is_noop "usr_1.wav" "   " "ok" [⟨"usr_1.wav", "old"⟩]
    (Or.inr (by decide))

/-- C2 counterexample: at a concrete successful `/dataset/list` response
whose body is the object `{samples: []}`, `listSamples` returns the whole
parsed body object, not the array stored under its `samples` key. -/
theorem listSamples_returns_body_not_samples_array :
    Api.listSamples ⟨200, "OK", "body", Json.obj [("samples", Json.arr [])], none⟩ ≠
      Except.ok (Json.arr []) := by
  simp [Api.listSamples, Api.handleResponse, Api.resOk]

/-- C2 amended: on a successful `/dataset/list` response, `listSamples`
returns the whole parsed JSON body; it is the page-level `fetchSamples`
that extracts the array under the `samples` key of that body, defaulting
to the empty array when the key is absent. -/
theorem listSamples_body_and_fetchSamples_rows (r : HttpResponse) (xs : List Json)
    (hok : 200 ≤ r.status ∧ r.status ≤ 299) :
    Api.listSamples r = Except.ok r.bodyJson ∧
    (DM.jsGetProp r.bodyJson "samples" = some (Json.arr xs) →
      DM.fetchSamplesRows r.bodyJson = Json.arr xs) ∧
    (DM.jsGetProp r.bodyJson "samples" = none →
      DM.fetchSamplesRows r.bodyJson = Json.arr []) := by
  refine ⟨?_, ?_, ?_⟩
  · have hb : Api.resOk r = true := by
      simp only [Api.resOk, Bool.and_eq_true, decide_eq_true_eq]
      omega
    simp [Api.listSamples, Api.handleResponse, hb]
  · intro h
    simp [DM.fetchSamplesRows, h, DM.jsTruthy]
  · intro h
    simp [DM.fetchSamplesRows, h]

/-- Witness for C2's amended statement at a concrete one-row response. -/
theorem listSamples_body_and_fetchSamples_rows_witness :
    Api.listSamples ⟨200, "OK", "body",
        Json.obj [("samples", Json.arr [Json.str "row"])], none⟩ =
      Except.ok (Json.obj [("samples", Json.arr [Json.str "row"])]) ∧
    (DM.jsGetProp (Json.obj [("samples", Json.arr [Json.str "row"])]) "samples" =
        some (Json.arr [Json.str "row"]) →
      DM.fetchSamplesRows (Json.obj [("samples", Json.arr [Json.str "row"])]) =
        Json.arr [Json.str "row"]) ∧
    (DM.jsGetProp (Json.obj [("samples", Json.arr [Json.str "row"])]) "samples" = none →
      DM.fetchSamplesRows (Json.obj [("samples", Json.arr [Json.str "row"])]) =
        Json.arr []) :=
  listSamples_body_and_fetchSamples_rows
    ⟨200, "OK", "body", Json.obj [("samples", Json.arr [Json.str "row"])], none⟩
    [Json.str "row"] (by decide)

/-- C3: when the export response's content type is not a zip, the v4.1.8
`downloadDataset` creates no anchor, clicks nothing (so no file download
is triggered) and only surfaces a notice toast. -/
theorem downloadDataset_nonzip_triggers_no_download (r : HttpResponse)
    (h : jsIncludes (jsToLower ((r.contentType).getD "")) "application/zip" = false) :
    (DM.downloadDataset r).anchorCreated = false ∧
    (DM.downloadDataset r).anchorClicked = false ∧
    (DM.downloadDataset r).toasts ≠ [] := by
  simp [DM.downloadDataset, h]

/-- Witness for C3 at a concrete HTML error response. -/
theorem downloadDataset_nonzip_triggers_no_download_witness :
    (DM.downloadDataset ⟨200, "OK", "export failed", Json.null,
        some "text/HTML; charset=utf-8"⟩).anchorCreated = false ∧
    (DM.downloadDataset ⟨200, "OK", "export failed", Json.null,
        some "text/HTML; charset=utf-8"⟩).anchorClicked = false ∧
    (DM.downloadDataset ⟨200, "OK", "export failed", Json.null,
        some "text/HTML; charset=utf-8"⟩).toasts ≠ [] :=
  downloadDataset_nonzip_triggers_no_download
    ⟨200, "OK", "export failed", Json.null, some "text/HTML; charset=utf-8"⟩
    (by decide)

lemma filter_bne_eq_removeAllByName (f : String) (l : List Sample) :
    l.filter (fun s => s.file_name != f) = removeAllByName f l := by
  induction l with
  | nil => rfl
  | cons s rest ih =>
      by_cases h : s.file_name = f
      · simp [List.filter_cons, h, removeAllByName, ih]
      · simp [List.filter_cons, h, removeAllByName, ih]

lemma deleteSample_fst_eq_filter (f : String) (prev : List Sample)
    (cur : Option Nat) :
    (DM.deleteSample "ok" f prev cur).1 =
      prev.filter (fun s => s.file_name != f) := by
  rw [DM.deleteSample]
  cases hf : prev.findIdx? (fun s => s.file_name == f) <;> simp [hf]

/-- C4: a successful delete (server status `ok`) replaces the local list
by the previous list with exactly the entries named `f` removed: the
result is the spec-side `removeAllByName`, it is a sublist of the previous
list (so all other entries keep their relative order), and membership is
exactly "was present and differently named". -/
theorem deleteSample_removes_exactly_matching (respStatus f : String)
    (prev : List Sample) (cur : Option Nat) (h : respStatus = "ok") :
    (DM.deleteSample respStatus f prev cur).1 = removeAllByName f prev ∧
    List.Sublist (DM.deleteSample respStatus f prev cur).1 prev ∧
    ∀ s : Sample, s ∈ (DM.deleteSample respStatus f prev cur).1 ↔
      (s ∈ prev ∧ s.file_name ≠ f) := by
  subst h
  rw [deleteSample_fst_eq_filter]
  refine ⟨filter_bne_eq_removeAllByName f prev, List.filter_sublist prev, ?_⟩
  intro s
  rw [List.mem_filter]
  simp [bne_iff_ne]

/-- Witness for C4 on a concrete three-row list with a duplicate name. -/
theorem deleteSample_removes_exactly_matching_witness :
    (DM.deleteSample "ok" "a.wav"
        [⟨"a.wav", "x"⟩, ⟨"b.wav", "y"⟩, ⟨"a.wav", "z"⟩] (some 0)).1 =
      removeAllByName "a.wav" [⟨"a.wav", "x"⟩, ⟨"b.wav", "y"⟩, ⟨"a.wav", "z"⟩] ∧
    List.Sublist
      (DM.deleteSample "ok" "a.wav"
        [⟨"a.wav", "x"⟩, ⟨"b.wav", "y"⟩, ⟨"a.wav", "z"⟩] (some 0)).1
      [⟨"a.wav", "x"⟩, ⟨"b.wav", "y"⟩, ⟨"a.wav", "z"⟩] ∧
    ∀ s : Sample,
      s ∈ (DM.deleteSample "ok" "a.wav"
        [⟨"a.wav", "x"⟩, ⟨"b.wav", "y"⟩, ⟨"a.wav", "z"⟩] (some 0)).1 ↔
      (s ∈ [⟨"a.wav", "x"⟩, ⟨"b.wav", "y"⟩, ⟨"a.wav", "z"⟩] ∧ s.file_name ≠ "a.wav") :=
  deleteSample_removes_exactly_matching "ok" "a.wav"
    [⟨"a.wav", "x"⟩, ⟨"b.wav", "y"⟩, ⟨"a.wav", "z"⟩] (some 0) rfl

/-- C9: after a successful delete of a row that was present (found at
index `i`), the focused-row index is `null` when the new list is empty,
and otherwise is the deleted row's index clamped to the new list's bounds,
hence a valid index of the new list. -/
theorem deleteSample_focus_index_valid (f : String) (prev : List Sample)
    (cur : Option Nat) (i : Nat)
    (hfind : prev.findIdx? (fun s => s.file_name == f) = some i) :
    ((DM.deleteSample "ok" f prev cur).1 = [] →
      (DM.deleteSample "ok" f prev cur).2 = none) ∧
    ((DM.deleteSample "ok" f prev cur).1 ≠ [] →
      (DM.deleteSample "ok" f prev cur).2 =
        some (min i ((DM.deleteSample "ok" f prev cur).1.length - 1)) ∧
      min i ((DM.deleteSample "ok" f prev cur).1.length - 1) <
        (DM.deleteSample "ok" f prev cur).1.length) := by
  have hd : DM.deleteSample "ok" f prev cur =
      (prev.filter (fun s => s.file_name != f),
        if (prev.filter (fun s => s.file_name != f)).length ≠ 0 then
          some (min i (max 0 ((prev.filter (fun s => s.file_name != f)).length - 1)))
        else none) := by
    rw [DM.deleteSample]
    simp [hfind]
  rw [hd]
  constructor
  · intro hempty
    have hlen : (prev.filter (fun s => s.file_name != f)).length = 0 := by
      simpa using congrArg List.length hempty
    simp [hlen]
  · intro hne
    have hlen : (prev.filter (fun s => s.file_name != f)).length ≠ 0 := by
      simpa [List.length_eq_zero] using hne
    refine ⟨by simp [hlen, Nat.zero_max], ?_⟩
    show min i ((prev.filter (fun s => s.file_name != f)).length - 1) <
      (prev.filter (fun s => s.file_name != f)).length
    omega

/-- Witness for C9 on a concrete two-row list. -/
theorem deleteSample_focus_index_valid_witness :
    ((DM.deleteSample "ok" "a.wav" [⟨"a.wav", "x"⟩, ⟨"b.wav", "y"⟩] (some 0)).1 = [] →
      (DM.deleteSample "ok" "a.wav" [⟨"a.wav", "x"⟩, ⟨"b.wav", "y"⟩] (some 0)).2 = none) ∧
    ((DM.deleteSample "ok" "a.wav" [⟨"a.wav", "x"⟩, ⟨"b.wav", "y"⟩] (some 0)).1 ≠ [] →
      (DM.deleteSample "ok" "a.wav" [⟨"a.wav", "x"⟩, ⟨"b.wav", "y"⟩] (some 0)).2 =
        some (min 0
          ((DM.deleteSample "ok" "a.wav" [⟨"a.wav", "x"⟩, ⟨"b.wav", "y"⟩] (some 0)).1.length - 1)) ∧
      min 0 ((DM.deleteSample "ok" "a.wav" [⟨"a.wav", "x"⟩, ⟨"b.wav", "y"⟩] (some 0)).1.length - 1) <
        (DM.deleteSample "ok" "a.wav" [⟨"a.wav", "x"⟩, ⟨"b.wav", "y"⟩] (some 0)).1.length) :=
  deleteSample_focus_index_valid "a.wav" [⟨"a.wav", "x"⟩, ⟨"b.wav", "y"⟩] (some 0) 0 rfl

lemma pushChunk_mem_pos (buf : List (List Nat)) (c x : List Nat)
    (hbuf : ∀ y ∈ buf, 0 < y.length) (hx : x ∈ Recorder.pushChunk buf c) :
    0 < x.length := by
  unfold Recorder.pushChunk at hx
  by_cases h : 0 < c.length
  · simp only [h, if_true, List.mem_append, List.mem_singleton] at hx
    rcases hx with hx | rfl
    · exact hbuf x hx
    · exact h
  · simp only [h, if_false] at hx
    exact hbuf x hx

lemma bufferChunks_all_pos (events : List (List Nat)) :
    ∀ c ∈ Recorder.bufferChunks events, 0 < c.length := by
  suffices h : ∀ acc : List (List Nat), (∀ y ∈ acc, 0 < y.length) →
      ∀ c ∈ events.foldl Recorder.pushChunk acc, 0 < c.length by
    exact h [] (by simp)
  induction events with
  | nil =>
      intro acc hacc c hc
      exact hacc c hc
  | cons e rest ih =>
      intro acc hacc c hc
      simp only [List.foldl_cons] at hc
      exact ih (Recorder.pushChunk acc e)
        (fun y hy => pushChunk_mem_pos acc e y hacc hy) c hc

lemma bufferChunks_flatten_pos (events : List (List Nat))
    (hne : Recorder.bufferChunks events ≠ []) :
    0 < (Recorder.bufferChunks events).flatten.length := by
  rcases List.exists_mem_of_ne_nil _ hne with ⟨c, hc⟩
  have hpos := bufferChunks_all_pos events c hc
  have hle : c.length ≤ (Recorder.bufferChunks events).flatten.length := by
    rw [List.length_flatten]
    exact List.single_le_sum (fun x _ => Nat.zero_le x) c.length
      (List.mem_map_of_mem List.length hc)
  omega

lemma onStopBlob_of_typed_nonempty (chunks : List (List Nat)) (t : String)
    (ht : (t == "") = false) (hsz : 0 < chunks.flatten.length) :
    Recorder.onStopBlob chunks t = Recorder.mkBlob chunks t := by
  rw [Recorder.onStopBlob]
  show (if (Recorder.mkBlob chunks t).type == "" ||
        Recorder.blobSize (Recorder.mkBlob chunks t) == 0
      then Recorder.mkBlob chunks "audio/mp4"
      else Recorder.mkBlob chunks t) = Recorder.mkBlob chunks t
  have h1 : ((Recorder.mkBlob chunks t).type == "") = false := ht
  have h2 : (Recorder.blobSize (Recorder.mkBlob chunks t) == 0) = false := by
    show (chunks.flatten.length == 0) = false
    simp only [beq_eq_false_iff_ne, ne_eq]
    omega
  rw [h1, h2]
  rfl

/-- C7: on stop, the recorder builds one blob whose bytes are the
concatenation of all buffered chunks, tagged with the MIME type chosen by
capability probing; the opus-in-webm container is chosen whenever the
platform supports it and the browser is not Safari, and `audio/mp4` is the
fallback when that support is absent. -/
theorem recorder_onstop_concatenates_with_probed_mime
    (isSafari supportsWebmOpus : Bool) (events : List (List Nat))
    (hne : Recorder.bufferChunks events ≠ []) :
    Recorder.onStopBlob (Recorder.bufferChunks events)
        (Recorder.chooseMimeType isSafari supportsWebmOpus) =
      ⟨(Recorder.bufferChunks events).flatten,
        Recorder.chooseMimeType isSafari supportsWebmOpus⟩ ∧
    (isSafari = false → supportsWebmOpus = true →
      Recorder.chooseMimeType isSafari supportsWebmOpus = "audio/webm;codecs=opus") ∧
    (supportsWebmOpus = false →
      Recorder.chooseMimeType isSafari supportsWebmOpus = "audio/mp4") := by
  refine ⟨?_, ?_, ?_⟩
  · have htype : (Recorder.chooseMimeType isSafari supportsWebmOpus == "") = false := by
      cases isSafari <;> cases supportsWebmOpus <;> decide
    exact onStopBlob_of_typed_nonempty _ _ htype (bufferChunks_flatten_pos events hne)
  · intro h1 h2
    rw [h1, h2]
    rfl
  · intro h
    rw [h]
    cases isSafari <;> rfl

/-- Witness for C7 on a concrete non-Safari opus-capable session. -/
theorem recorder_onstop_concatenates_with_probed_mime_witness :
    Recorder.onStopBlob (Recorder.bufferChunks [[1, 2], [], [3]])
        (Recorder.chooseMimeType false true) =
      ⟨(Recorder.bufferChunks [[1, 2], [], [3]]).flatten,
        Recorder.chooseMimeType false true⟩ ∧
    (false = false → true = true →
      Recorder.chooseMimeType false true = "audio/webm;codecs=opus") ∧
    (true = false → Recorder.chooseMimeType false true = "audio/mp4") :=
  recorder_onstop_concatenates_with_probed_mime false true [[1, 2], [], [3]]
    (by decide)

lemma digitChar_isDigit : ∀ m, m < 10 → (Nat.digitChar m).isDigit = true := by
  decide

lemma toDigitsCore_ten_append (fuel : Nat) :
    ∀ (n : Nat) (ds : List Char),
      Nat.toDigitsCore 10 fuel n ds = Nat.toDigitsCore 10 fuel n [] ++ ds := by
  induction fuel with
  | zero =>
      intro n ds
      rfl
  | succ fuel ih =>
      intro n ds
      rw [Nat.toDigitsCore.eq_def]
      conv_rhs => rw [Nat.toDigitsCore.eq_def]
      dsimp only
      by_cases h : n / 10 = 0
      · simp [h]
      · simp only [h, if_false]
        rw [ih (n / 10) (Nat.digitChar (n % 10) :: ds),
          ih (n / 10) [Nat.digitChar (n % 10)], List.append_assoc]
        rfl

lemma toDigitsCore_ten_fuel_irrel (n : Nat) :
    ∀ f1 f2 ds, n < f1 → n < f2 →
      Nat.toDigitsCore 10 f1 n ds = Nat.toDigitsCore 10 f2 n ds := by
  induction n using Nat.strong_induction_on with
  | _ n ih =>
    intro f1 f2 ds h1 h2
    cases f1 with
    | zero => omega
    | succ f1 =>
        cases f2 with
        | zero => omega
        | succ f2 =>
            rw [Nat.toDigitsCore.eq_def]
            conv_rhs => rw [Nat.toDigitsCore.eq_def]
            dsimp only
            by_cases h : n / 10 = 0
            · simp [h]
            · simp only [h, if_false]
              exact ih (n / 10) (by omega) f1 f2 _ (by omega) (by omega)

lemma toDigits_ten_small (n : Nat) (h : n < 10) :
    Nat.toDigits 10 n = [Nat.digitChar n] := by
  simp only [Nat.toDigits]
  rw [Nat.toDigitsCore.eq_def]
  dsimp only
  have h0 : n / 10 = 0 := Nat.div_eq_of_lt h
  simp [h0, Nat.mod_eq_of_lt h]

lemma toDigits_ten_step (n : Nat) (h : 10 ≤ n) :
    Nat.toDigits 10 n = Nat.toDigits 10 (n / 10) ++ [Nat.digitChar (n % 10)] := by
  simp only [Nat.toDigits]
  rw [Nat.toDigitsCore.eq_def]
  dsimp only
  have h0 : ¬ n / 10 = 0 := by omega
  simp only [h0, if_false]
  rw [toDigitsCore_ten_append n (n / 10) [Nat.digitChar (n % 10)]]
  congr 1
  exact toDigitsCore_ten_fuel_irrel (n / 10) n (n / 10 + 1) [] (by omega) (by omega)

lemma toDigits_ten_all_digits (n : Nat) :
    (Nat.toDigits 10 n).all Char.isDigit = true := by
  induction n using Nat.strong_induction_on with
  | _ n ih =>
    by_cases h : n < 10
    · rw [toDigits_ten_small n h]
      simp [digitChar_isDigit n h]
    · rw [toDigits_ten_step n (by omega)]
      rw [List.all_append]
      have h1 := ih (n / 10) (by omega)
      have h2 := digitChar_isDigit (n % 10) (by omega)
      simp [h1, h2]

lemma toDigits_ten_length_step (n : Nat) :
    (Nat.toDigits 10 n).length =
      if n < 10 then 1 else (Nat.toDigits 10 (n / 10)).length + 1 := by
  by_cases h : n < 10
  · rw [toDigits_ten_small n h]
    simp [h]
  · rw [toDigits_ten_step n (by omega)]
    simp [h]

lemma repr_length_eq_toDigits (n : Nat) :
    (Nat.repr n).length = (Nat.toDigits 10 n).length := rfl

lemma repr_data_all_eq_toDigits (n : Nat) :
    (Nat.repr n).data.all Char.isDigit = (Nat.toDigits 10 n).all Char.isDigit := rfl

lemma repr_all_digits (n : Nat) : (Nat.repr n).data.all Char.isDigit = true := by
  rw [repr_data_all_eq_toDigits]
  exact toDigits_ten_all_digits n

lemma repr_year_length (y : Nat) (h1 : 1000 ≤ y) (h2 : y ≤ 9999) :
    (Nat.repr y).length = 4 := by
  rw [repr_length_eq_toDigits, toDigits_ten_length_step y,
    toDigits_ten_length_step (y / 10), toDigits_ten_length_step (y / 10 / 10),
    toDigits_ten_length_step (y / 10 / 10 / 10)]
  have ha : ¬ y < 10 := by omega
  have hb : ¬ y / 10 < 10 := by omega
  have hc : ¬ y / 10 / 10 < 10 := by omega
  have hd : y / 10 / 10 / 10 < 10 := by omega
  simp [ha, hb, hc, hd]

lemma repr_length_pos (n : Nat) : 1 ≤ (Nat.repr n).length := by
  rw [repr_length_eq_toDigits, toDigits_ten_length_step n]
  split
  · omega
  · omega

lemma repr_length_lt100 (n : Nat) (h : n < 100) : (Nat.repr n).length ≤ 2 := by
  rw [repr_length_eq_toDigits, toDigits_ten_length_step n]
  by_cases h1 : n < 10
  · simp [h1]
  · simp only [h1, if_false]
    rw [toDigits_ten_length_step (n / 10)]
    have h2 : n / 10 < 10 := by omega
    simp [h2]

lemma pad_length (n : Nat) (h : n < 100) : (Api.pad n).length = 2 := by
  rw [Api.pad, jsPadStart]
  have h1 := repr_length_pos n
  have h2 := repr_length_lt100 n h
  by_cases hc : 2 ≤ (Nat.repr n).length
  · simp only [hc, if_true]
    omega
  · simp only [hc, if_false]
    show (List.replicate (2 - (Nat.repr n).length) '0' ++ (Nat.repr n).data).length = 2
    rw [List.length_append, List.length_replicate]
    have hdata : (Nat.repr n).data.length = (Nat.repr n).length := rfl
    omega

lemma pad_digits (n : Nat) :
    (Api.pad n).data.all Char.isDigit = true := by
  rw [Api.pad, jsPadStart]
  by_cases hc : 2 ≤ (Nat.repr n).length
  · simp only [hc, if_true]
    exact repr_all_digits n
  · simp only [hc, if_false]
    show (List.replicate (2 - (Nat.repr n).length) '0' ++ (Nat.repr n).data).all
      Char.isDigit = true
    rw [List.all_append]
    have hz : (List.replicate (2 - (Nat.repr n).length) '0').all Char.isDigit = true := by
      simp [List.all_eq_true, List.mem_replicate]
    simp [hz, repr_all_digits n]

/-- C6: `addSample` with no explicit file name uses the generated
timestamp name, and for any in-range clock reading the generated name
matches the fixed pattern `usr_YYYYMMDD_HHMMSS.wav` with the month, day,
hour, minute and second blocks zero-padded to two digits. -/
theorem addSample_default_name_matches_timestamp_pattern (now : JsDate)
    (hy1 : 1000 ≤ now.getFullYear) (hy2 : now.getFullYear ≤ 9999)
    (hmo : now.getMonth + 1 < 100) (hd : now.getDate < 100)
    (hh : now.getHours < 100) (hmi : now.getMinutes < 100)
    (hs : now.getSeconds < 100) :
    Api.addSampleName none now = Api.generateFileName "usr" now ∧
    matchesTimestampPattern (Api.generateFileName "usr" now) := by
  refine ⟨rfl, Nat.repr now.getFullYear, Api.pad (now.getMonth + 1),
    Api.pad now.getDate, Api.pad now.getHours, Api.pad now.getMinutes,
    Api.pad now.getSeconds, rfl,
    repr_year_length _ hy1 hy2, pad_length _ hmo, pad_length _ hd,
    pad_length _ hh, pad_length _ hmi, pad_length _ hs,
    repr_all_digits _, pad_digits _, pad_digits _,
    pad_digits _, pad_digits _, pad_digits _⟩

/-- Witness for C6 at a concrete clock reading. -/
theorem addSample_default_name_matches_timestamp_pattern_witness :
    Api.addSampleName none ⟨2024, 0, 5, 7, 3, 9⟩ =
      Api.generateFileName "usr" ⟨2024, 0, 5, 7, 3, 9⟩ ∧
    matchesTimestampPattern (Api.generateFileName "usr" ⟨2024, 0, 5, 7, 3, 9⟩) :=
  addSample_default_name_matches_timestamp_pattern ⟨2024, 0, 5, 7, 3, 9⟩
    (by decide) (by decide) (by decide) (by decide) (by decide) (by decide)
    (by decide)

end WhisperFrontend
